import Mathlib

/-!
# Lasem MathML view: box model and operator glyph sizing

A shallow embedding of `src/src/gmathmlview.c`.

Conventions of the embedding.

* C `double` values are exact rationals (`ℚ`); rounding of IEEE arithmetic is
  not modelled.  The literal `1.6` is `8/5`.
* Pango units are `Int`; `pango_units_to_double i = i / PANGO_SCALE`.
* The Pango shaping backend and the operator glyph table are external to the
  file; they are parameters collected in `Backend`.
* A `g_return_if_fail` precondition that fails makes a function return
  without writing its output; the embedded function then returns `none`.
-/

namespace Lasem

/-! ## Data model -/

/-- Pango rectangle, in Pango units. -/
structure PangoRectangle where
  x : Int
  y : Int
  width : Int
  height : Int
deriving DecidableEq, Repr

/-- Pango font style; only the two values the view sets. -/
inductive PangoStyle where
  | PANGO_STYLE_NORMAL
  | PANGO_STYLE_ITALIC
deriving DecidableEq, Repr

/-- Pango font description: the three fields the view sets. -/
structure PangoFontDescription where
  family : String
  size : Int
  style : PangoStyle
deriving DecidableEq, Repr

/-- Pango layout: the text and the font description last handed to it. -/
structure PangoLayout where
  text : String
  font_description : PangoFontDescription
deriving DecidableEq, Repr

/-- Modelled from the spec: the bounding box type `GMathmlBbox` is declared in a
header that is not under src/; the spec gives it as
`(width, height, depth, defined)`. -/
structure GMathmlBbox where
  width : ℚ
  height : ℚ
  depth : ℚ
  is_defined : Bool
deriving DecidableEq, Repr

/-- Modelled from the spec: the constant `gmathml_bbox_null` is defined outside
src/; the spec describes the null box as `defined=false`, all dimensions 0. -/
def gmathml_bbox_null : GMathmlBbox :=
  { width := 0, height := 0, depth := 0, is_defined := false }

/-- Modelled from the spec: colour `RGBA`, declared outside src/. -/
structure GMathmlColor where
  red : ℚ
  green : ℚ
  blue : ℚ
  alpha : ℚ
deriving DecidableEq, Repr

/-- Modelled from the spec: `math_variant: enum{Normal, Italic, …}`, declared
outside src/; every value other than the two named ones is `other`. -/
inductive GMathmlVariant where
  | GMATHML_VARIANT_NORMAL
  | GMATHML_VARIANT_ITALIC
  | other
deriving DecidableEq, Repr

/-- Modelled from the spec: the style attributes of an element (the struct is
declared outside src/); `id` stands for the element's address. -/
structure GMathmlElement where
  id : Nat
  math_size : ℚ
  math_variant : GMathmlVariant
  math_color : GMathmlColor
  math_background : GMathmlColor
deriving DecidableEq, Repr

/-- Modelled from the spec: the glyph flag set
`{has_large_version, stretch_horizontal, stretch_vertical, align_axis}`; the
bit constants `GMATHML_GLYPH_FLAG_*` are declared outside src/.  A field is
`true` when `flags & GMATHML_GLYPH_FLAG_...` is non-zero. -/
structure GMathmlGlyphFlags where
  has_large_version : Bool
  stretch_horizontal : Bool
  stretch_vertical : Bool
  align_axis : Bool
deriving DecidableEq, Repr

/-- The empty flag set, `flags = 0`. -/
def GMathmlGlyphFlags.none : GMathmlGlyphFlags :=
  { has_large_version := false, stretch_horizontal := false,
    stretch_vertical := false, align_axis := false }

/-- One sized glyph of a table entry: an index into `gmathml_font_names` and
the text to shape. -/
structure GMathmlGlyph where
  font : Nat
  utf8 : String
deriving DecidableEq, Repr

/-- Entry of the operator glyph table; `n_sized_glyphs` is the length of
`sized_glyphs`. -/
structure GMathmlOperatorGlyph where
  utf8 : String
  flags : GMathmlGlyphFlags
  sized_glyphs : List GMathmlGlyph
deriving DecidableEq, Repr

/-- The external collaborators of the view: the Pango shaping backend (ink
extents and baseline of a layout) and the operator glyph table lookup
`gmathml_glyph_table_find_operator_glyph`. -/
structure Backend where
  get_extents : PangoLayout → PangoRectangle
  get_baseline : PangoLayout → Int
  find_operator_glyph : String → Option GMathmlOperatorGlyph

/-- The private state of a view (`struct _GMathmlViewPrivate`), without the
document and the cairo handle. -/
structure GMathmlView where
  debug : Bool
  pango_layout : PangoLayout
  font_description : PangoFontDescription
  is_vector : Bool
  current_element : Option GMathmlElement
  elements : List GMathmlElement
deriving DecidableEq, Repr

/-! ## Constants and conversions -/

/-- Pango units per point. -/
def PANGO_SCALE : Int := 1024

/-- The scale of a large operator, `#define GMATHML_LARGE_OP_SCALE 1.6`. -/
def GMATHML_LARGE_OP_SCALE : ℚ := 8 / 5

/-- The table `gmathml_font_names`. -/
def gmathml_font_names : List String :=
  ["", "Sans", "cmr10", "cmmi10", "cmex10", "cmsy10", "symbol"]

/-- Conversion `pango_units_to_double`. -/
def pango_units_to_double (i : Int) : ℚ := (i : ℚ) / (PANGO_SCALE : ℚ)

/-- Conversion of a `double` to `int` in C: truncation toward zero. -/
def double_to_int (q : ℚ) : Int := if 0 ≤ q then ⌊q⌋ else ⌈q⌉

/-! ## Measuring -/

/-- Function `gmathml_view_measure_length` (lines 66-75). -/
def gmathml_view_measure_length (view : GMathmlView) (length : ℚ) : ℚ :=
  if view.is_vector then length else ((⌊length + 1 / 2⌋ : Int) : ℚ)

/-- Function `gmathml_view_update_layout` (lines 83-119); `element` is
`view->priv->current_element`.  Returns the view with the new font description
and layout, the ink rectangle and the baseline. -/
def gmathml_view_update_layout (be : Backend) (view : GMathmlView)
    (element : GMathmlElement) (text : String) (large : Bool) :
    GMathmlView × PangoRectangle × Int :=
  let fd : PangoFontDescription :=
    { family := "Serif"
      size := double_to_int (element.math_size * (PANGO_SCALE : ℚ) *
                (if large then GMATHML_LARGE_OP_SCALE else 1))
      style := match element.math_variant with
        | GMathmlVariant.GMATHML_VARIANT_NORMAL => PangoStyle.PANGO_STYLE_NORMAL
        | GMathmlVariant.GMATHML_VARIANT_ITALIC => PangoStyle.PANGO_STYLE_ITALIC
        | GMathmlVariant.other => PangoStyle.PANGO_STYLE_NORMAL }
  let layout : PangoLayout := { text := text, font_description := fd }
  ({ view with font_description := fd, pango_layout := layout },
   be.get_extents layout, be.get_baseline layout)

/-- State of the sized-glyph loop when it is left: the loop variable `i`, the
flag `found`, the view (font description and layout as last set) and the
local `ink_rect`. -/
structure GlyphLoop where
  i : Nat
  found : Bool
  view : GMathmlView
  ink_rect : PangoRectangle
deriving DecidableEq, Repr

/-- The layout the body of the sized-glyph loop hands to Pango for the glyph
`g` (lines 312-316): family `gmathml_font_names [g.font]`, the size set before
the loop, normal style, text `g.utf8`. -/
def sized_glyph_layout (size : Int) (g : GMathmlGlyph) : PangoLayout :=
  { text := g.utf8
    font_description :=
      { family := gmathml_font_names.getD g.font ""
        size := size
        style := PangoStyle.PANGO_STYLE_NORMAL } }

/-- The value of `found` after the two tests of the loop body (lines 328-338)
on an ink rectangle, when the stretch box is defined. -/
def stretch_found (flags : GMathmlGlyphFlags) (stretch_bbox : GMathmlBbox)
    (ink_rect : PangoRectangle) : Bool :=
  (flags.stretch_vertical &&
    decide (pango_units_to_double ink_rect.height >
              stretch_bbox.height + stretch_bbox.depth)) ||
  (flags.stretch_horizontal &&
    decide (pango_units_to_double ink_rect.width > stretch_bbox.width))

/-- The loop `for (; i < glyph->n_sized_glyphs; i++)` over the sized glyphs of
a table entry (lines 311-342 of `gmathml_view_measure_operator`; the body at
lines 429-460 of `gmathml_view_show_operator` is the same text).  The first
argument is the list of glyphs from index `i` on. -/
def sized_glyph_loop (be : Backend) (flags : GMathmlGlyphFlags)
    (stretch_bbox : GMathmlBbox) :
    List GMathmlGlyph → Nat → GMathmlView → PangoRectangle → GlyphLoop
  | [], i, view, ink_rect =>
    { i := i, found := false, view := view, ink_rect := ink_rect }
  | g :: rest, i, view, _ =>
    let layout : PangoLayout := sized_glyph_layout view.font_description.size g
    let view1 : GMathmlView :=
      { view with font_description := layout.font_description
                  pango_layout := layout }
    let ink_rect := be.get_extents layout
    if !stretch_bbox.is_defined then
      { i := i, found := true, view := view1, ink_rect := ink_rect }
    else if stretch_found flags stretch_bbox ink_rect then
      { i := i, found := true, view := view1, ink_rect := ink_rect }
    else
      sized_glyph_loop be flags stretch_bbox rest (i + 1) view1 ink_rect

/-- What the glyph resolution of an operator leaves behind: the view, the
loop variable and flag of the sized-glyph loop (0 and false on a table miss,
where there is no loop), the ink rectangle, the baseline and the flags. -/
structure GlyphChoice where
  view : GMathmlView
  i : Nat
  found : Bool
  ink_rect : PangoRectangle
  baseline : Int
  flags : GMathmlGlyphFlags
deriving DecidableEq, Repr

/-- Glyph resolution of `gmathml_view_measure_operator` (lines 287-352).
`ink_rect0` is the indeterminate initial content of the local `ink_rect`,
which is read only when the loop shapes no glyph. -/
def gmathml_view_measure_operator_resolve (be : Backend) (view : GMathmlView)
    (element : GMathmlElement) (text : String) (large : Bool)
    (stretch_bbox : GMathmlBbox) (ink_rect0 : PangoRectangle) : GlyphChoice :=
  match be.find_operator_glyph text with
  | none =>
    let (view1, ink_rect, baseline) :=
      gmathml_view_update_layout be view element text large
    { view := view1, i := 0, found := false, ink_rect := ink_rect,
      baseline := baseline, flags := GMathmlGlyphFlags.none }
  | some glyph =>
    let start : Nat × Int :=
      if large && glyph.flags.has_large_version && !stretch_bbox.is_defined then
        (1, double_to_int (element.math_size * (PANGO_SCALE : ℚ)))
      else
        (0, double_to_int (element.math_size * (PANGO_SCALE : ℚ) *
              (if large then GMATHML_LARGE_OP_SCALE else 1)))
    let view0 : GMathmlView :=
      { view with font_description :=
          { view.font_description with size := start.2 } }
    let r := sized_glyph_loop be glyph.flags stretch_bbox
      (glyph.sized_glyphs.drop start.1) start.1 view0 ink_rect0
    { view := r.view, i := r.i, found := r.found, ink_rect := r.ink_rect,
      baseline := be.get_baseline r.view.pango_layout, flags := glyph.flags }

/-- Box computation of `gmathml_view_measure_operator` (lines 354-382) from
the resolved ink rectangle, baseline and flags. -/
def gmathml_view_measure_operator_bbox (view : GMathmlView)
    (flags : GMathmlGlyphFlags) (ink_rect : PangoRectangle) (baseline : Int)
    (symmetric : Bool) (axis_offset : ℚ) (stretch_bbox : GMathmlBbox) :
    GMathmlBbox :=
  let height0 : ℚ :=
    if stretch_bbox.is_defined && flags.stretch_vertical then stretch_bbox.height
    else pango_units_to_double (baseline - ink_rect.y)
  let depth0 : ℚ :=
    if stretch_bbox.is_defined && flags.stretch_vertical then stretch_bbox.depth
    else pango_units_to_double (ink_rect.height + ink_rect.y - baseline)
  let width : ℚ :=
    if stretch_bbox.is_defined && flags.stretch_horizontal then stretch_bbox.width
    else pango_units_to_double ink_rect.width
  let length1 : ℚ := depth0 + height0
  let height1 : ℚ :=
    if !stretch_bbox.is_defined && flags.align_axis then
      gmathml_view_measure_length view (1 / 2 * length1 + axis_offset)
    else height0
  let depth1 : ℚ :=
    if !stretch_bbox.is_defined && flags.align_axis then
      gmathml_view_measure_length view (1 / 2 * length1 - axis_offset)
    else depth0
  let length2 : ℚ :=
    if axis_offset + depth1 > height1 - axis_offset then axis_offset + depth1
    else height1 - axis_offset
  let height2 : ℚ :=
    if stretch_bbox.is_defined && symmetric && flags.stretch_vertical then
      gmathml_view_measure_length view (length2 + axis_offset)
    else height1
  let depth2 : ℚ :=
    if stretch_bbox.is_defined && symmetric && flags.stretch_vertical then
      gmathml_view_measure_length view (length2 - axis_offset)
    else depth1
  { width := width, height := height2, depth := depth2, is_defined := true }

/-- Function `gmathml_view_measure_operator` (lines 256-383).  `none` when the
precondition on the current element fails (nothing is written to `bbox`);
otherwise the view after the call and the box written to `bbox`. -/
def gmathml_view_measure_operator (be : Backend) (view : GMathmlView)
    (text : Option String) (large : Bool) (symmetric : Bool) (axis_offset : ℚ)
    (stretch_bbox : GMathmlBbox) (ink_rect0 : PangoRectangle) :
    Option (GMathmlView × GMathmlBbox) :=
  match view.current_element with
  | none => none
  | some element =>
    match text with
    | none => some (view, gmathml_bbox_null)
    | some text =>
      let r := gmathml_view_measure_operator_resolve be view element text large
        stretch_bbox ink_rect0
      some (r.view,
        gmathml_view_measure_operator_bbox view r.flags r.ink_rect r.baseline
          symmetric axis_offset stretch_bbox)

/-- Glyph resolution of `gmathml_view_show_operator` (lines 403-468): `none`
when the function returns before resolving (no current element, `text` null
or stretch box undefined). -/
def gmathml_view_show_operator_resolve (be : Backend) (view : GMathmlView)
    (text : Option String) (large : Bool) (stretch_bbox : GMathmlBbox)
    (ink_rect0 : PangoRectangle) : Option GlyphChoice :=
  match view.current_element with
  | none => none
  | some element =>
    match text with
    | none => none
    | some text =>
      if !stretch_bbox.is_defined then none
      else
        match be.find_operator_glyph text with
        | none =>
          let (view1, ink_rect, baseline) :=
            gmathml_view_update_layout be view element text large
          some { view := view1, i := 0, found := false, ink_rect := ink_rect,
                 baseline := baseline, flags := GMathmlGlyphFlags.none }
        | some glyph =>
          let start : Nat × Int :=
            if large && glyph.flags.has_large_version then
              (1, double_to_int (element.math_size * (PANGO_SCALE : ℚ)))
            else
              (0, double_to_int (element.math_size * (PANGO_SCALE : ℚ) *
                    (if large then GMATHML_LARGE_OP_SCALE else 1)))
          let view0 : GMathmlView :=
            { view with font_description :=
                { view.font_description with size := start.2 } }
          let r := sized_glyph_loop be glyph.flags stretch_bbox
            (glyph.sized_glyphs.drop start.1) start.1 view0 ink_rect0
          some { view := r.view, i := r.i, found := r.found,
                 ink_rect := r.ink_rect,
                 baseline := be.get_baseline r.view.pango_layout,
                 flags := glyph.flags }

/-! ## Radicals -/

/-- Modelled from the spec: the macros `GMATHML_RADICAL_UTF8`,
`GMATHML_MEDIUM_SPACE_EM`, `GMATHML_RADICAL_TOP_LINE_WIDTH` and
`GMATHML_RADICAL_ORDER_*_OFFSET` are defined in headers that are not under
src/; they are taken as parameters (the radical text, the medium space in em,
the `topLineWidthRatio` of the spec, and the two offsets of the order). -/
structure RadicalConstants where
  GMATHML_RADICAL_UTF8 : String
  GMATHML_MEDIUM_SPACE_EM : ℚ
  GMATHML_RADICAL_TOP_LINE_WIDTH : ℚ
  GMATHML_RADICAL_ORDER_X_OFFSET : ℚ
  GMATHML_RADICAL_ORDER_Y_OFFSET : ℚ

/-- The local `thickness` of `gmathml_view_measure_radical` (lines 523-526)
and of `gmathml_view_show_radical` (lines 571-574): the snapped top line
width, raised to 1 on raster output when below 1. -/
def radical_thickness (c : RadicalConstants) (view : GMathmlView)
    (element : GMathmlElement) : ℚ :=
  let thickness := gmathml_view_measure_length view
    (element.math_size * c.GMATHML_RADICAL_TOP_LINE_WIDTH)
  if !view.is_vector && decide (thickness < 1) then 1 else thickness

/-- The local `radical_stretch_bbox` of `gmathml_view_measure_radical` (lines
521-535): the content box with inflated height and depth. -/
def radical_stretch_bbox (c : RadicalConstants) (view : GMathmlView)
    (element : GMathmlElement) (stretch_bbox : GMathmlBbox) : GMathmlBbox :=
  { stretch_bbox with
    height := stretch_bbox.height +
      (gmathml_view_measure_length view
        (c.GMATHML_MEDIUM_SPACE_EM * element.math_size)
       + radical_thickness c view element)
    depth := stretch_bbox.depth +
      gmathml_view_measure_length view
        (c.GMATHML_MEDIUM_SPACE_EM * element.math_size) }

/-- Function `gmathml_view_measure_radical` (lines 509-550).  `none` when the
precondition on the current element fails; otherwise the view after the call,
the box, `*x_offset` and `*y_offset`. -/
def gmathml_view_measure_radical (c : RadicalConstants) (be : Backend)
    (view : GMathmlView) (stretch_bbox : GMathmlBbox)
    (ink_rect0 : PangoRectangle) : Option (GMathmlView × GMathmlBbox × ℚ × ℚ) :=
  match view.current_element with
  | none => none
  | some element =>
    match gmathml_view_measure_operator be view (some c.GMATHML_RADICAL_UTF8)
        false false 0 (radical_stretch_bbox c view element stretch_bbox)
        ink_rect0 with
    | none => none
    | some (view1, bbox) =>
      some (view1, bbox,
        gmathml_view_measure_length view
          (bbox.width * c.GMATHML_RADICAL_ORDER_X_OFFSET),
        gmathml_view_measure_length view
          ((bbox.height + bbox.depth) * c.GMATHML_RADICAL_ORDER_Y_OFFSET -
            c.GMATHML_MEDIUM_SPACE_EM * element.math_size))

/-! ## Painting -/

/-- The calls made on the cairo context, in the order they are made.
`arc_circle xc yc radius` is `cairo_arc (cairo, xc, yc, radius, 0.0, 2.0 * M_PI)`;
`show_layout` is `pango_cairo_show_layout` on the given layout. -/
inductive CairoOp where
  | save
  | restore
  | set_line_width (width : ℚ)
  | set_source_rgba (red green blue alpha : ℚ)
  | arc_circle (xc yc radius : ℚ)
  | fill
  | move_to (x y : ℚ)
  | rel_move_to (dx dy : ℚ)
  | line_to (x y : ℚ)
  | scale (sx sy : ℚ)
  | show_layout (layout : PangoLayout)
  | stroke
deriving DecidableEq, Repr

/-- Function `gmathml_view_show_operator` (lines 385-507): the view after the
call and the cairo calls made.  Nothing is painted when the function returns
early (no current element, null text, undefined stretch box, or an ink
rectangle of zero width or height). -/
def gmathml_view_show_operator (be : Backend) (view : GMathmlView) (x y : ℚ)
    (text : Option String) (large : Bool) (stretch_bbox : GMathmlBbox)
    (ink_rect0 : PangoRectangle) : GMathmlView × List CairoOp :=
  match view.current_element with
  | none => (view, [])
  | some element =>
    match gmathml_view_show_operator_resolve be view text large stretch_bbox
        ink_rect0 with
    | none => (view, [])
    | some r =>
      if r.ink_rect.width = 0 || r.ink_rect.height = 0 then (r.view, [])
      else
        let scale_x : ℚ :=
          stretch_bbox.width / pango_units_to_double r.ink_rect.width
        let scale_y : ℚ :=
          (stretch_bbox.height + stretch_bbox.depth) /
            pango_units_to_double r.ink_rect.height
        (r.view,
          [CairoOp.save] ++
          (if view.debug then
            [CairoOp.set_source_rgba 1 0 0 (1 / 10), CairoOp.arc_circle x y 1,
             CairoOp.fill]
           else []) ++
          [CairoOp.move_to x y,
           CairoOp.move_to x (y - stretch_bbox.height),
           CairoOp.scale scale_x scale_y,
           CairoOp.rel_move_to (- pango_units_to_double r.ink_rect.x)
             (- pango_units_to_double r.ink_rect.y),
           CairoOp.set_source_rgba element.math_color.red
             element.math_color.green element.math_color.blue
             element.math_color.alpha,
           CairoOp.show_layout r.view.pango_layout,
           CairoOp.restore])

/-- Function `gmathml_view_draw_fraction_line` (lines 721-755): the cairo
calls made.  `rounded_thickness` is a C `int`, so both assignments to it
convert a `double` by truncation; `%` on it is the C remainder. -/
def gmathml_view_draw_fraction_line (view : GMathmlView) (x y width thickness : ℚ)
    (color : GMathmlColor) : List CairoOp :=
  let rounded_thickness : Int :=
    if view.is_vector then double_to_int thickness
    else double_to_int (thickness + 1 / 2)
  let y1 : ℚ :=
    if view.is_vector then y
    else if Int.tmod rounded_thickness 2 = 0 then
      ((double_to_int (y + 1 / 2) : Int) : ℚ)
    else 1 / 2 + ((double_to_int y : Int) : ℚ)
  let x1 : ℚ :=
    if view.is_vector then x
    else if Int.tmod rounded_thickness 2 = 0 then
      ((double_to_int (x + 1 / 2) : Int) : ℚ)
    else 1 / 2 + ((double_to_int x : Int) : ℚ)
  [CairoOp.set_line_width (rounded_thickness : ℚ),
   CairoOp.set_source_rgba color.red color.green color.blue
     (if decide (thickness < 1) && !view.is_vector then thickness
      else color.alpha),
   CairoOp.move_to x1 y1,
   CairoOp.line_to (x1 + width) y1,
   CairoOp.stroke]

/-! ## The style-context stack -/

/-- Function `gmathml_view_push_element` (lines 697-705). -/
def gmathml_view_push_element (view : GMathmlView) (element : GMathmlElement) :
    GMathmlView :=
  { view with elements := element :: view.elements
              current_element := some element }

/-- Function `gmathml_view_pop_element` (lines 707-719); `g_slist_remove`
removes the first node whose data is the given one. -/
def gmathml_view_pop_element (view : GMathmlView) : GMathmlView :=
  match view.elements with
  | [] => view
  | data :: _ =>
    let elements := view.elements.erase data
    match elements with
    | [] => { view with elements := elements, current_element := none }
    | top :: _ => { view with elements := elements, current_element := some top }

/-! ## Top-level passes -/

/-- A call on the style-context stack made by a node while it is measured,
laid out or rendered.  The node implementations are outside src/; a pass over
a tree is represented by the sequence of stack calls it makes. -/
inductive ElementCall where
  | push (element : GMathmlElement)
  | pop
deriving DecidableEq, Repr

/-- Effect on the view of a sequence of stack calls. -/
def run_element_calls : GMathmlView → List ElementCall → GMathmlView
  | view, [] => view
  | view, ElementCall.push element :: rest =>
    run_element_calls (gmathml_view_push_element view element) rest
  | view, ElementCall.pop :: rest =>
    run_element_calls (gmathml_view_pop_element view) rest

/-- Function `gmathml_view_measure` (lines 757-784), its effect on the view:
`root_is_math` is the precondition `GMATHML_IS_MATH_ELEMENT (root)`,
`measure_calls` the stack calls of `gmathml_element_measure` on the root. -/
def gmathml_view_measure (view : GMathmlView) (root_is_math : Bool)
    (measure_calls : List ElementCall) : GMathmlView :=
  if !root_is_math then view
  else run_element_calls view measure_calls

/-- Function `gmathml_view_render` (lines 786-828), its effect on the view:
the stack is reset, the root is measured, laid out and rendered, and dangling
elements are dropped. -/
def gmathml_view_render (view : GMathmlView) (root_is_math : Bool)
    (measure_calls layout_calls render_calls : List ElementCall) : GMathmlView :=
  if !root_is_math then view
  else
    let view0 : GMathmlView := { view with current_element := none, elements := [] }
    let view1 := run_element_calls view0 measure_calls
    let view2 := run_element_calls view1 layout_calls
    let view3 := run_element_calls view2 render_calls
    if view3.elements ≠ [] then { view3 with elements := [] } else view3

/-! ## Concrete inputs used by the witnesses -/

/-- A colour: opaque black. -/
def black : GMathmlColor := { red := 0, green := 0, blue := 0, alpha := 1 }

/-- An element with `math_size = 10` and normal variant. -/
def example_element : GMathmlElement :=
  { id := 1, math_size := 10, math_variant := GMathmlVariant.GMATHML_VARIANT_NORMAL,
    math_color := black, math_background := black }

/-- A layout state before any shaping. -/
def example_layout : PangoLayout :=
  { text := "", font_description :=
      { family := "", size := 0, style := PangoStyle.PANGO_STYLE_NORMAL } }

/-- A raster view with `example_element` as current element. -/
def example_view : GMathmlView :=
  { debug := false, pango_layout := example_layout,
    font_description := example_layout.font_description,
    is_vector := false, current_element := some example_element,
    elements := [example_element] }

/-- A vector view with `example_element` as current element. -/
def example_vector_view : GMathmlView :=
  { example_view with is_vector := true }

/-- A fresh view: empty stack, no current element. -/
def empty_view : GMathmlView :=
  { debug := false, pango_layout := example_layout,
    font_description := example_layout.font_description,
    is_vector := false, current_element := none, elements := [] }

/-- A table entry for "+": axis aligned, one sized glyph. -/
def plus_glyph : GMathmlOperatorGlyph :=
  { utf8 := "+"
    flags := { has_large_version := false, stretch_horizontal := false,
               stretch_vertical := false, align_axis := true }
    sized_glyphs := [{ font := 2, utf8 := "+" }] }

/-- A table entry for "(": stretches vertically, three sized glyphs. -/
def paren_glyph : GMathmlOperatorGlyph :=
  { utf8 := "("
    flags := { has_large_version := false, stretch_horizontal := false,
               stretch_vertical := true, align_axis := false }
    sized_glyphs := [{ font := 2, utf8 := "(" }, { font := 4, utf8 := "a" },
                     { font := 4, utf8 := "b" }] }

/-- A table entry for the integral sign: has a large version, two sized
glyphs. -/
def integral_glyph : GMathmlOperatorGlyph :=
  { utf8 := "∫"
    flags := { has_large_version := true, stretch_horizontal := false,
               stretch_vertical := false, align_axis := false }
    sized_glyphs := [{ font := 4, utf8 := "R" }, { font := 4, utf8 := "Z" }] }

/-- A table entry for "=": stretches on both axes, two sized glyphs. -/
def equal_glyph : GMathmlOperatorGlyph :=
  { utf8 := "="
    flags := { has_large_version := false, stretch_horizontal := true,
               stretch_vertical := true, align_axis := false }
    sized_glyphs := [{ font := 4, utf8 := "a" }, { font := 4, utf8 := "b" }] }

/-- A table entry for "|": has a large version and stretches vertically, two
sized glyphs. -/
def bar_glyph : GMathmlOperatorGlyph :=
  { utf8 := "|"
    flags := { has_large_version := true, stretch_horizontal := false,
               stretch_vertical := true, align_axis := false }
    sized_glyphs := [{ font := 4, utf8 := "a" }, { font := 4, utf8 := "b" }] }

/-- A glyph table with the five entries above. -/
def example_table (text : String) : Option GMathmlOperatorGlyph :=
  if text = "+" then some plus_glyph
  else if text = "(" then some paren_glyph
  else if text = "∫" then some integral_glyph
  else if text = "=" then some equal_glyph
  else if text = "|" then some bar_glyph
  else none

/-- A backend whose ink rectangles depend on the text shaped: "a" is 2 points
high, "b" is 4 points high, every other text 1 point high; every text is 1
point wide, and the ink starts 1 point above the baseline. -/
def example_backend : Backend :=
  { get_extents := fun layout =>
      { x := 0, y := 1024, width := 1024,
        height := if layout.text = "a" then 2048
                  else if layout.text = "b" then 4096 else 1024 }
    get_baseline := fun _ => 2048
    find_operator_glyph := example_table }

/-- A defined stretch box of the given height and depth, 1 point wide. -/
def stretch_box (height depth : ℚ) : GMathmlBbox :=
  { width := 1, height := height, depth := depth, is_defined := true }

/-- The ink rectangle with all fields zero. -/
def zero_rect : PangoRectangle := { x := 0, y := 0, width := 0, height := 0 }

/-- Values for the radical constants: the square root sign, a medium space of
2/9 em, a top line of 1/20 of the size, offsets 1/2. -/
def example_constants : RadicalConstants :=
  { GMATHML_RADICAL_UTF8 := "√"
    GMATHML_MEDIUM_SPACE_EM := 2 / 9
    GMATHML_RADICAL_TOP_LINE_WIDTH := 1 / 20
    GMATHML_RADICAL_ORDER_X_OFFSET := 1 / 2
    GMATHML_RADICAL_ORDER_Y_OFFSET := 1 / 2 }

/-- A table entry for the radical: stretches vertically, two sized glyphs. -/
def radical_glyph : GMathmlOperatorGlyph :=
  { utf8 := "√"
    flags := { has_large_version := false, stretch_horizontal := false,
               stretch_vertical := true, align_axis := false }
    sized_glyphs := [{ font := 4, utf8 := "a" }, { font := 4, utf8 := "b" }] }

/-- The example backend with a glyph table that holds the radical only. -/
def radical_backend : Backend :=
  { example_backend with
    find_operator_glyph := fun text =>
      if text = "√" then some radical_glyph else none }

/-- An element with `math_size = 12` and normal variant. -/
def element_12 : GMathmlElement :=
  { example_element with id := 2, math_size := 12 }

/-- A raster view with `element_12` as current element. -/
def view_12 : GMathmlView :=
  { example_view with current_element := some element_12
                      elements := [element_12] }

/-- The content box of the radical scenario: width 20, height 10, depth 2. -/
def content_box : GMathmlBbox :=
  { width := 20, height := 10, depth := 2, is_defined := true }

/-! ## Theorems -/

/-- The resolved flags on a table hit are the flags of the entry. -/
theorem resolve_flags_hit (be : Backend) (view : GMathmlView)
    (element : GMathmlElement) (text : String) (large : Bool)
    (stretch_bbox : GMathmlBbox) (ink_rect0 : PangoRectangle)
    (glyph : GMathmlOperatorGlyph)
    (hfind : be.find_operator_glyph text = some glyph) :
    (gmathml_view_measure_operator_resolve be view element text large
      stretch_bbox ink_rect0).flags = glyph.flags := by
  simp [gmathml_view_measure_operator_resolve, hfind]

/-- With an undefined stretch box the sized-glyph loop stops on the first
glyph it visits. -/
theorem sized_glyph_loop_undefined (be : Backend) (flags : GMathmlGlyphFlags)
    (stretch_bbox : GMathmlBbox) (hundef : stretch_bbox.is_defined = false)
    (g : GMathmlGlyph) (rest : List GMathmlGlyph) (i : Nat) (view : GMathmlView)
    (ink_rect : PangoRectangle) :
    sized_glyph_loop be flags stretch_bbox (g :: rest) i view ink_rect
      = { i := i, found := true
          view := { view with
            font_description :=
              (sized_glyph_layout view.font_description.size g).font_description
            pango_layout := sized_glyph_layout view.font_description.size g }
          ink_rect := be.get_extents
            (sized_glyph_layout view.font_description.size g) } := by
  simp [sized_glyph_loop, hundef]

/-- C5: glyph selection without a stretch target.  On a table hit with an
undefined stretch box, `gmathml_view_measure_operator` accepts the first
candidate it visits (`found` is set at the start index).  That candidate `g`
is index 1, shaped at the unscaled size `math_size`, when `large` is requested
and the entry has the has-large-version flag; otherwise it is index 0, shaped
at `math_size * (1.6 if large else 1)`.  The box has the ink width of that
glyph; without the align-axis flag its height and depth are the ink split at
the baseline and sum to the ink height, with the flag they are the axis split
of the ink height.  The stretch box contributes nothing: the result is the
one obtained with the null box. -/
theorem glyph_selection_natural (be : Backend) (view : GMathmlView)
    (element : GMathmlElement) (text : String) (large symmetric : Bool)
    (axis_offset : ℚ) (stretch_bbox : GMathmlBbox) (ink_rect0 : PangoRectangle)
    (glyph : GMathmlOperatorGlyph) (g : GMathmlGlyph)
    (hcur : view.current_element = some element)
    (hfind : be.find_operator_glyph text = some glyph)
    (hundef : stretch_bbox.is_defined = false)
    (hg : glyph.sized_glyphs[if large && glyph.flags.has_large_version then 1 else 0]?
            = some g) :
    ∃ (layout : PangoLayout) (ink : PangoRectangle) (baseline : Int)
      (view1 : GMathmlView) (bbox : GMathmlBbox),
      layout = sized_glyph_layout
        (if large && glyph.flags.has_large_version then
          double_to_int (element.math_size * (PANGO_SCALE : ℚ))
        else
          double_to_int (element.math_size * (PANGO_SCALE : ℚ) *
            (if large then GMATHML_LARGE_OP_SCALE else 1))) g ∧
      ink = be.get_extents layout ∧
      baseline = be.get_baseline layout ∧
      gmathml_view_measure_operator be view (some text) large symmetric
        axis_offset stretch_bbox ink_rect0 = some (view1, bbox) ∧
      view1.pango_layout = layout ∧
      (gmathml_view_measure_operator_resolve be view element text large
        stretch_bbox ink_rect0).i
        = (if large && glyph.flags.has_large_version then 1 else 0) ∧
      (gmathml_view_measure_operator_resolve be view element text large
        stretch_bbox ink_rect0).found = true ∧
      bbox.is_defined = true ∧
      bbox.width = pango_units_to_double ink.width ∧
      (if glyph.flags.align_axis then
        bbox.height = gmathml_view_measure_length view
          (1 / 2 * pango_units_to_double ink.height + axis_offset) ∧
        bbox.depth = gmathml_view_measure_length view
          (1 / 2 * pango_units_to_double ink.height - axis_offset)
      else
        bbox.height = pango_units_to_double (baseline - ink.y) ∧
        bbox.depth = pango_units_to_double (ink.height + ink.y - baseline) ∧
        bbox.height + bbox.depth = pango_units_to_double ink.height) ∧
      gmathml_view_measure_operator be view (some text) large symmetric
        axis_offset stretch_bbox ink_rect0
        = gmathml_view_measure_operator be view (some text) large symmetric
            axis_offset gmathml_bbox_null ink_rect0 := by
  obtain ⟨hlt, hget⟩ := List.getElem?_eq_some.mp hg
  have hdrop := List.drop_eq_getElem_cons hlt
  rw [hget] at hdrop
  have hnull : gmathml_bbox_null.is_defined = false := rfl
  have hres : ∀ (sb : GMathmlBbox), sb.is_defined = false →
      gmathml_view_measure_operator_resolve be view element text large sb ink_rect0
      = { view := { view with
            font_description := (sized_glyph_layout
              (if large && glyph.flags.has_large_version then
                double_to_int (element.math_size * (PANGO_SCALE : ℚ))
              else
                double_to_int (element.math_size * (PANGO_SCALE : ℚ) *
                  (if large then GMATHML_LARGE_OP_SCALE else 1))) g).font_description
            pango_layout := sized_glyph_layout
              (if large && glyph.flags.has_large_version then
                double_to_int (element.math_size * (PANGO_SCALE : ℚ))
              else
                double_to_int (element.math_size * (PANGO_SCALE : ℚ) *
                  (if large then GMATHML_LARGE_OP_SCALE else 1))) g }
          i := if large && glyph.flags.has_large_version then 1 else 0
          found := true
          ink_rect := be.get_extents (sized_glyph_layout
              (if large && glyph.flags.has_large_version then
                double_to_int (element.math_size * (PANGO_SCALE : ℚ))
              else
                double_to_int (element.math_size * (PANGO_SCALE : ℚ) *
                  (if large then GMATHML_LARGE_OP_SCALE else 1))) g)
          baseline := be.get_baseline (sized_glyph_layout
              (if large && glyph.flags.has_large_version then
                double_to_int (element.math_size * (PANGO_SCALE : ℚ))
              else
                double_to_int (element.math_size * (PANGO_SCALE : ℚ) *
                  (if large then GMATHML_LARGE_OP_SCALE else 1))) g)
          flags := glyph.flags } := by
    intro sb hsb
    simp only [gmathml_view_measure_operator_resolve, hfind, hsb, Bool.not_false,
      Bool.and_true]
    cases hc : (large && glyph.flags.has_large_version)
    · rw [hc] at hdrop
      simp only [Bool.false_eq_true, if_false] at hdrop ⊢
      rw [hdrop, sized_glyph_loop_undefined be glyph.flags sb hsb]
    · rw [hc] at hdrop
      simp only [if_true] at hdrop ⊢
      rw [hdrop, sized_glyph_loop_undefined be glyph.flags sb hsb]
  have hbox : ∀ (sb : GMathmlBbox), sb.is_defined = false →
      ∀ (ink : PangoRectangle) (baseline : Int),
      gmathml_view_measure_operator_bbox view glyph.flags ink baseline symmetric
        axis_offset sb
      = { width := pango_units_to_double ink.width
          height := if glyph.flags.align_axis then
              gmathml_view_measure_length view
                (1 / 2 * pango_units_to_double ink.height + axis_offset)
            else pango_units_to_double (baseline - ink.y)
          depth := if glyph.flags.align_axis then
              gmathml_view_measure_length view
                (1 / 2 * pango_units_to_double ink.height - axis_offset)
            else pango_units_to_double (ink.height + ink.y - baseline)
          is_defined := true } := by
    intro sb hsb ink baseline
    have htot : pango_units_to_double (ink.height + ink.y - baseline) +
        pango_units_to_double (baseline - ink.y)
        = pango_units_to_double ink.height := by
      simp only [pango_units_to_double]
      push_cast
      ring
    simp only [gmathml_view_measure_operator_bbox, hsb, Bool.false_and,
      Bool.false_eq_true, if_false, Bool.not_false, Bool.true_and, htot]
  simp only [gmathml_view_measure_operator, hcur]
  rw [hres stretch_bbox hundef, hres gmathml_bbox_null hnull,
    hbox stretch_bbox hundef, hbox gmathml_bbox_null hnull]
  refine ⟨_, _, _, _, _, rfl, rfl, rfl, rfl, rfl, rfl, rfl, rfl, rfl, ?_, rfl⟩
  cases ha : glyph.flags.align_axis
  · simp only [Bool.false_eq_true, if_false, true_and]
    simp only [pango_units_to_double]
    push_cast
    ring
  · simp only [if_true, and_self]

/-- Witness of C5: the integral sign, large, with the null stretch box: the
candidate accepted is index 1 ("Z"), shaped at the unscaled size. -/
theorem glyph_selection_natural_witness :
    ∃ (view1 : GMathmlView) (bbox : GMathmlBbox),
      gmathml_view_measure_operator example_backend example_view (some "∫") true
        false 0 gmathml_bbox_null zero_rect = some (view1, bbox) ∧
      view1.pango_layout = sized_glyph_layout
        (double_to_int (example_element.math_size * (PANGO_SCALE : ℚ)))
        { font := 4, utf8 := "Z" } ∧
      bbox.is_defined = true ∧
      bbox.width = pango_units_to_double
        (example_backend.get_extents view1.pango_layout).width := by
  obtain ⟨layout, ink, baseline, view1, bbox, hl, hi, _, hm, hv, _, _, hd, hw, _⟩ :=
    glyph_selection_natural example_backend example_view example_element "∫" true
      false 0 gmathml_bbox_null zero_rect integral_glyph { font := 4, utf8 := "Z" }
      rfl rfl rfl rfl
  refine ⟨view1, bbox, hm, hv.trans hl, hd, ?_⟩
  rw [hw, hi, hv]

/-- C6: operator box pass-through.  For every non-null text, with
`symmetric = false`, the box returned by `gmathml_view_measure_operator` is
defined; its height and depth are those of the stretch box when the stretch
box is defined and the resolved flags contain stretch-vertical, the axis split
of the ink height when the stretch box is undefined and the flags contain
align-axis, and otherwise `baseline - ink.y` and `ink.y + ink.height - baseline`
(in points); its width is the stretch width when the stretch box is defined and
the flags contain stretch-horizontal, and the ink width otherwise.  Ink
rectangle, baseline and flags are those of the glyph resolution. -/
theorem operator_box_pass_through (be : Backend) (view : GMathmlView)
    (element : GMathmlElement) (text : String) (large : Bool) (axis_offset : ℚ)
    (stretch_bbox : GMathmlBbox) (ink_rect0 : PangoRectangle)
    (hcur : view.current_element = some element) :
    ∃ (r : GlyphChoice) (bbox : GMathmlBbox),
      r = gmathml_view_measure_operator_resolve be view element text large
            stretch_bbox ink_rect0 ∧
      gmathml_view_measure_operator be view (some text) large false axis_offset
        stretch_bbox ink_rect0 = some (r.view, bbox) ∧
      bbox.is_defined = true ∧
      (if stretch_bbox.is_defined && r.flags.stretch_vertical then
        bbox.height = stretch_bbox.height ∧ bbox.depth = stretch_bbox.depth
      else if !stretch_bbox.is_defined && r.flags.align_axis then
        bbox.height = gmathml_view_measure_length view
          (1 / 2 * pango_units_to_double r.ink_rect.height + axis_offset) ∧
        bbox.depth = gmathml_view_measure_length view
          (1 / 2 * pango_units_to_double r.ink_rect.height - axis_offset)
      else
        bbox.height = pango_units_to_double (r.baseline - r.ink_rect.y) ∧
        bbox.depth = pango_units_to_double
          (r.ink_rect.height + r.ink_rect.y - r.baseline)) ∧
      (if stretch_bbox.is_defined && r.flags.stretch_horizontal then
        bbox.width = stretch_bbox.width
      else
        bbox.width = pango_units_to_double r.ink_rect.width) := by
  refine ⟨gmathml_view_measure_operator_resolve be view element text large
      stretch_bbox ink_rect0,
    gmathml_view_measure_operator_bbox view
      (gmathml_view_measure_operator_resolve be view element text large
        stretch_bbox ink_rect0).flags
      (gmathml_view_measure_operator_resolve be view element text large
        stretch_bbox ink_rect0).ink_rect
      (gmathml_view_measure_operator_resolve be view element text large
        stretch_bbox ink_rect0).baseline false axis_offset
    stretch_bbox, rfl, ?_, rfl, ?_, ?_⟩
  · simp only [gmathml_view_measure_operator, hcur]
  · generalize gmathml_view_measure_operator_resolve be view element text large
      stretch_bbox ink_rect0 = r
    have htot : pango_units_to_double (r.ink_rect.height + r.ink_rect.y - r.baseline) +
        pango_units_to_double (r.baseline - r.ink_rect.y)
        = pango_units_to_double r.ink_rect.height := by
      simp only [pango_units_to_double]
      push_cast
      ring
    cases hd : stretch_bbox.is_defined <;> cases hv : r.flags.stretch_vertical <;>
      cases ha : r.flags.align_axis <;>
      simp [gmathml_view_measure_operator_bbox, hd, hv, ha, htot]
  · generalize gmathml_view_measure_operator_resolve be view element text large
      stretch_bbox ink_rect0 = r
    cases hd : stretch_bbox.is_defined <;> cases hh : r.flags.stretch_horizontal <;>
      simp [gmathml_view_measure_operator_bbox, hd, hh]

/-- Witness of C6: "(" on the raster example view against a stretch box of
height 5 and depth 2 is given exactly that height and depth, and its ink
width. -/
theorem operator_box_pass_through_witness :
    ∃ (view1 : GMathmlView) (bbox : GMathmlBbox),
      gmathml_view_measure_operator example_backend example_view (some "(") false
        false (1 / 4) (stretch_box 5 2) zero_rect = some (view1, bbox) ∧
      bbox.is_defined = true ∧ bbox.height = 5 ∧ bbox.depth = 2 ∧
      bbox.width = pango_units_to_double
        (gmathml_view_measure_operator_resolve example_backend example_view
          example_element "(" false (stretch_box 5 2) zero_rect).ink_rect.width := by
  obtain ⟨r, bbox, hr, hm, hdef, hhd, hw⟩ :=
    operator_box_pass_through example_backend example_view example_element "("
      false (1 / 4) (stretch_box 5 2) zero_rect rfl
  have hflags : r.flags = paren_glyph.flags := by
    rw [hr]
    exact resolve_flags_hit example_backend example_view example_element "(" false
      (stretch_box 5 2) zero_rect paren_glyph rfl
  rw [hflags] at hhd hw
  refine ⟨r.view, bbox, hm, hdef, hhd.1, hhd.2, ?_⟩
  rw [← hr]
  exact hw

/-- When `large` is not requested or the entry has no large version,
`gmathml_view_show_operator` resolves the glyph exactly as
`gmathml_view_measure_operator` does, for every defined stretch box. -/
theorem show_resolve_eq_measure_resolve (be : Backend) (view : GMathmlView)
    (element : GMathmlElement) (text : String) (large : Bool)
    (stretch_bbox : GMathmlBbox) (ink_rect0 : PangoRectangle)
    (glyph : GMathmlOperatorGlyph)
    (hcur : view.current_element = some element)
    (hfind : be.find_operator_glyph text = some glyph)
    (hdef : stretch_bbox.is_defined = true)
    (hlarge : (large && glyph.flags.has_large_version) = false) :
    gmathml_view_show_operator_resolve be view (some text) large stretch_bbox
        ink_rect0
      = some (gmathml_view_measure_operator_resolve be view element text large
          stretch_bbox ink_rect0) := by
  simp [gmathml_view_show_operator_resolve, gmathml_view_measure_operator_resolve,
    hcur, hfind, hdef, hlarge]

/-- C7 fails on the code.  With `large` requested, a defined stretch box and an
entry that has a large version, measuring starts at index 0 with the font
size scaled by 1.6 while painting starts at index 1 with the unscaled size.
For the integral sign (two sized glyphs, no stretch flag) both passes end on
glyph 1, shaped at size 16384 when measuring and 10240 when painting; for
"|" (large version and stretch-vertical) against a target of 1.5 points
measuring selects glyph 0 ("a") and painting glyph 1 ("b"). -/
theorem measure_show_disagree :
    ((gmathml_view_measure_operator example_backend example_view (some "∫") true
        false 0 (stretch_box 5 2) zero_rect).map (fun r => r.1.pango_layout)
       = some (sized_glyph_layout 16384 { font := 4, utf8 := "Z" }) ∧
     (gmathml_view_show_operator_resolve example_backend example_view (some "∫")
        true (stretch_box 5 2) zero_rect).map (fun r => r.view.pango_layout)
       = some (sized_glyph_layout 10240 { font := 4, utf8 := "Z" })) ∧
    ((gmathml_view_measure_operator example_backend example_view (some "|") true
        false 0 (stretch_box 1 (1 / 2)) zero_rect).map (fun r => r.1.pango_layout)
       = some (sized_glyph_layout 16384 { font := 4, utf8 := "a" }) ∧
     (gmathml_view_show_operator_resolve example_backend example_view (some "|")
        true (stretch_box 1 (1 / 2)) zero_rect).map (fun r => r.view.pango_layout)
       = some (sized_glyph_layout 10240 { font := 4, utf8 := "b" })) := by
  have hsize1 : double_to_int (10 * (1024 : ℚ)) = 10240 := by
    norm_num [double_to_int]
  have hsize2 : double_to_int (10 * (1024 : ℚ) * (8 / 5)) = 16384 := by
    norm_num [double_to_int]
  refine ⟨⟨?_, ?_⟩, ?_, ?_⟩
  · norm_num +decide [gmathml_view_measure_operator,
      gmathml_view_measure_operator_resolve, example_view, example_backend,
      example_table, integral_glyph, example_element, stretch_box,
      sized_glyph_loop, stretch_found, sized_glyph_layout, PANGO_SCALE,
      GMATHML_LARGE_OP_SCALE, hsize2]
  · norm_num +decide [gmathml_view_show_operator_resolve, example_view,
      example_backend, example_table, integral_glyph, example_element, stretch_box,
      sized_glyph_loop, stretch_found, sized_glyph_layout, PANGO_SCALE,
      GMATHML_LARGE_OP_SCALE, hsize1]
  · norm_num +decide [gmathml_view_measure_operator,
      gmathml_view_measure_operator_resolve, example_view, example_backend,
      example_table, bar_glyph, example_element, stretch_box,
      sized_glyph_loop, stretch_found, sized_glyph_layout, PANGO_SCALE,
      pango_units_to_double, GMATHML_LARGE_OP_SCALE, hsize2]
  · norm_num +decide [gmathml_view_show_operator_resolve, example_view,
      example_backend, example_table, bar_glyph, example_element, stretch_box,
      sized_glyph_loop, stretch_found, sized_glyph_layout, PANGO_SCALE,
      pango_units_to_double, GMATHML_LARGE_OP_SCALE, hsize1]

/-- When the root is a math element, `gmathml_view_render` returns with an
empty style-context stack, whatever stack calls the nodes make and whatever
the stack held before. -/
theorem render_leaves_stack_empty (view : GMathmlView)
    (measure_calls layout_calls render_calls : List ElementCall) :
    (gmathml_view_render view true measure_calls layout_calls render_calls).elements
      = [] := by
  simp only [gmathml_view_render, Bool.not_true, Bool.false_eq_true, if_false]
  split
  · rfl
  · rename_i h
    simpa using h

/-- C9 fails on the code for `gmathml_view_measure`.  From a fresh view, a
tree whose measure pass pushes one element and never pops it leaves that
element on the stack when `gmathml_view_measure` returns, while
`gmathml_view_render` on the same tree returns with the stack empty. -/
theorem measure_leaves_dangling_element :
    (gmathml_view_measure empty_view true
        [ElementCall.push example_element]).elements = [example_element] ∧
    (gmathml_view_render empty_view true
        [ElementCall.push example_element] [] []).elements = [] :=
  ⟨rfl, render_leaves_stack_empty empty_view [ElementCall.push example_element] [] []⟩

/-- C10: table-miss fallback.  For an operator text absent from the glyph
table, `gmathml_view_measure_operator` shapes the raw text in family "Serif"
at `math_size * (1.6 if large else 1)` with the empty flag set, and for every
stretch box, symmetric flag and axis offset returns the natural ink box:
width `ink.width`, height `baseline - ink.y`, depth
`ink.y + ink.height - baseline` (in points), `is_defined = true`. -/
theorem table_miss_fallback (be : Backend) (view : GMathmlView)
    (element : GMathmlElement) (text : String) (large symmetric : Bool)
    (axis_offset : ℚ) (stretch_bbox : GMathmlBbox) (ink_rect0 : PangoRectangle)
    (hcur : view.current_element = some element)
    (hmiss : be.find_operator_glyph text = none) :
    ∃ (layout : PangoLayout) (ink : PangoRectangle) (baseline : Int)
      (view1 : GMathmlView),
      layout.text = text ∧
      layout.font_description.family = "Serif" ∧
      layout.font_description.size =
        double_to_int (element.math_size * (PANGO_SCALE : ℚ) *
          (if large then GMATHML_LARGE_OP_SCALE else 1)) ∧
      ink = be.get_extents layout ∧
      baseline = be.get_baseline layout ∧
      view1.pango_layout = layout ∧
      (gmathml_view_measure_operator_resolve be view element text large
        stretch_bbox ink_rect0).flags = GMathmlGlyphFlags.none ∧
      gmathml_view_measure_operator be view (some text) large symmetric
          axis_offset stretch_bbox ink_rect0
        = some (view1,
            { width := pango_units_to_double ink.width
              height := pango_units_to_double (baseline - ink.y)
              depth := pango_units_to_double (ink.height + ink.y - baseline)
              is_defined := true }) := by
  refine ⟨(gmathml_view_update_layout be view element text large).1.pango_layout,
    _, _, (gmathml_view_update_layout be view element text large).1,
    rfl, rfl, rfl, rfl, rfl, rfl, ?_, ?_⟩
  · simp [gmathml_view_measure_operator_resolve, hmiss]
  · simp [gmathml_view_measure_operator, hcur,
      gmathml_view_measure_operator_resolve, hmiss,
      gmathml_view_measure_operator_bbox, GMathmlGlyphFlags.none,
      gmathml_view_update_layout]

/-- Witness of C10: "x" is absent from the example table; measured large and
symmetric against a defined stretch box it still gets its natural ink box,
1 point wide, 1 point high, of depth 0. -/
theorem table_miss_fallback_witness :
    ∃ (view1 : GMathmlView),
      view1.pango_layout.font_description.family = "Serif" ∧
      view1.pango_layout.font_description.size =
        double_to_int (example_element.math_size * (PANGO_SCALE : ℚ) *
          (if true then GMATHML_LARGE_OP_SCALE else 1)) ∧
      gmathml_view_measure_operator example_backend example_view (some "x") true
          true (1 / 4) (stretch_box 5 2) zero_rect
        = some (view1, { width := 1, height := 1, depth := 0, is_defined := true }) := by
  obtain ⟨layout, ink, baseline, view1, htext, hfam, hsize, hink, hbase, hlay, _, hm⟩ :=
    table_miss_fallback example_backend example_view example_element "x" true true
      (1 / 4) (stretch_box 5 2) zero_rect rfl rfl
  refine ⟨view1, by rw [hlay]; exact hfam, by rw [hlay]; exact hsize, ?_⟩
  rw [hm, hink, hbase]
  norm_num +decide [example_backend, pango_units_to_double, PANGO_SCALE, htext]

/-- The cairo calls of `gmathml_view_draw_fraction_line`, with the values of
the local variables made explicit. -/
theorem draw_fraction_line_ops (view : GMathmlView) (x y width thickness : ℚ)
    (color : GMathmlColor) :
    gmathml_view_draw_fraction_line view x y width thickness color
      = [CairoOp.set_line_width
           (((if view.is_vector then double_to_int thickness
              else double_to_int (thickness + 1 / 2) : Int)) : ℚ),
         CairoOp.set_source_rgba color.red color.green color.blue
           (if decide (thickness < 1) && !view.is_vector then thickness
            else color.alpha),
         CairoOp.move_to
           (if view.is_vector then x
            else if Int.tmod (double_to_int (thickness + 1 / 2)) 2 = 0 then
              ((double_to_int (x + 1 / 2) : Int) : ℚ)
            else 1 / 2 + ((double_to_int x : Int) : ℚ))
           (if view.is_vector then y
            else if Int.tmod (double_to_int (thickness + 1 / 2)) 2 = 0 then
              ((double_to_int (y + 1 / 2) : Int) : ℚ)
            else 1 / 2 + ((double_to_int y : Int) : ℚ)),
         CairoOp.line_to
           ((if view.is_vector then x
             else if Int.tmod (double_to_int (thickness + 1 / 2)) 2 = 0 then
               ((double_to_int (x + 1 / 2) : Int) : ℚ)
             else 1 / 2 + ((double_to_int x : Int) : ℚ)) + width)
           (if view.is_vector then y
            else if Int.tmod (double_to_int (thickness + 1 / 2)) 2 = 0 then
              ((double_to_int (y + 1 / 2) : Int) : ℚ)
            else 1 / 2 + ((double_to_int y : Int) : ℚ)),
         CairoOp.stroke] := by
  cases hv : view.is_vector <;> simp [gmathml_view_draw_fraction_line, hv]

/-- C11: fraction-bar translucency.  `gmathml_view_draw_fraction_line` makes
exactly one `cairo_set_source_rgba` call; its red, green and blue are those of
the given colour, and its alpha is the requested thickness when the output is
raster and `thickness < 1`, and the colour's own alpha in every other case
(raster with `thickness >= 1`, vector output for every thickness). -/
theorem fraction_line_alpha (view : GMathmlView) (x y width thickness : ℚ)
    (color : GMathmlColor) :
    ∃ (w x1 y1 : ℚ),
      gmathml_view_draw_fraction_line view x y width thickness color
        = [CairoOp.set_line_width w,
           CairoOp.set_source_rgba color.red color.green color.blue
             (if view.is_vector = false ∧ thickness < 1 then thickness
              else color.alpha),
           CairoOp.move_to x1 y1,
           CairoOp.line_to (x1 + width) y1,
           CairoOp.stroke] := by
  have ha : (if decide (thickness < 1) && !view.is_vector then thickness
        else color.alpha)
      = (if view.is_vector = false ∧ thickness < 1 then thickness
        else color.alpha) := by
    cases hv : view.is_vector <;> by_cases ht : thickness < 1 <;> simp [ht]
  rw [draw_fraction_line_ops, ha]
  exact ⟨_, _, _, rfl⟩

/-- C12 fails on the code.  On raster output a fraction bar of thickness 0.4
(and likewise 0.1) is stroked with line width 0: the thickness plus 0.5 is
truncated to the integer 0 and nothing raises it, although the alpha is set
to the thickness. -/
theorem fraction_line_width_rounded_away :
    gmathml_view_draw_fraction_line example_view 3 7 10 (2 / 5) black
      = [CairoOp.set_line_width 0, CairoOp.set_source_rgba 0 0 0 (2 / 5),
         CairoOp.move_to 3 7, CairoOp.line_to 13 7, CairoOp.stroke] ∧
    gmathml_view_draw_fraction_line example_view 3 7 10 (1 / 10) black
      = [CairoOp.set_line_width 0, CairoOp.set_source_rgba 0 0 0 (1 / 10),
         CairoOp.move_to 3 7, CairoOp.line_to 13 7, CairoOp.stroke] := by
  constructor <;>
    norm_num [gmathml_view_draw_fraction_line, example_view, black, double_to_int]

/-- Conversion to `int` of a non-negative `double` is the floor. -/
theorem double_to_int_of_nonneg (q : ℚ) (hq : 0 ≤ q) : double_to_int q = ⌊q⌋ := by
  simp [double_to_int, hq]

/-- On raster output, for `thickness >= 0`, the line width set by
`gmathml_view_draw_fraction_line` is the thickness rounded to the nearest
integer, `floor (thickness + 1/2)`. -/
theorem fraction_line_width_raster (view : GMathmlView) (x y width thickness : ℚ)
    (color : GMathmlColor) (hraster : view.is_vector = false)
    (ht : 0 ≤ thickness) :
    (gmathml_view_draw_fraction_line view x y width thickness color).head?
      = some (CairoOp.set_line_width ((⌊thickness + 1 / 2⌋ : Int) : ℚ)) := by
  rw [draw_fraction_line_ops, hraster,
    double_to_int_of_nonneg _ (by linarith : (0 : ℚ) ≤ thickness + 1 / 2)]
  simp

/-- C16 fails on the code for vector output.  The line width is held in a C
`int`, so on a vector view a thickness of 0.4 is stroked with line width 0
and a thickness of 1.5 with line width 1, not with the given thickness. -/
theorem fraction_line_width_vector_truncated :
    gmathml_view_draw_fraction_line example_vector_view 3 7 10 (2 / 5) black
      = [CairoOp.set_line_width 0, CairoOp.set_source_rgba 0 0 0 1,
         CairoOp.move_to 3 7, CairoOp.line_to 13 7, CairoOp.stroke] ∧
    gmathml_view_draw_fraction_line example_vector_view 3 7 10 (3 / 2) black
      = [CairoOp.set_line_width 1, CairoOp.set_source_rgba 0 0 0 1,
         CairoOp.move_to 3 7, CairoOp.line_to 13 7, CairoOp.stroke] := by
  constructor <;>
    norm_num [gmathml_view_draw_fraction_line, example_vector_view, example_view,
      black, double_to_int]

/-- C14: radical measurement.  For a defined content box of height `h` and
depth `d` and current `math_size = s`, when the glyph table flags the radical
as stretch-vertical, `gmathml_view_measure_radical` measures the radical
operator (not large, not symmetric, axis offset 0) against the inflated box
of height `h + snap (MEDIUM_SPACE_EM * s) + thickness` and depth
`d + snap (MEDIUM_SPACE_EM * s)`, where `thickness` is
`snap (s * RADICAL_TOP_LINE_WIDTH)` raised to 1 when the output is raster and
the snapped value is below 1; the returned box is defined and has exactly the
inflated height and depth, so it is at least as high and as deep as the
target. -/
theorem measure_radical_inflated (c : RadicalConstants) (be : Backend)
    (view : GMathmlView) (element : GMathmlElement) (stretch_bbox : GMathmlBbox)
    (ink_rect0 : PangoRectangle) (glyph : GMathmlOperatorGlyph)
    (hcur : view.current_element = some element)
    (hdef : stretch_bbox.is_defined = true)
    (hfind : be.find_operator_glyph c.GMATHML_RADICAL_UTF8 = some glyph)
    (hvert : glyph.flags.stretch_vertical = true) :
    ∃ (thickness : ℚ) (target : GMathmlBbox) (view1 : GMathmlView)
      (bbox : GMathmlBbox) (x_offset y_offset : ℚ),
      thickness =
        (if view.is_vector = false ∧
            gmathml_view_measure_length view
              (element.math_size * c.GMATHML_RADICAL_TOP_LINE_WIDTH) < 1
         then 1
         else gmathml_view_measure_length view
              (element.math_size * c.GMATHML_RADICAL_TOP_LINE_WIDTH)) ∧
      target =
        { width := stretch_bbox.width
          height := stretch_bbox.height +
            (gmathml_view_measure_length view
              (c.GMATHML_MEDIUM_SPACE_EM * element.math_size) + thickness)
          depth := stretch_bbox.depth +
            gmathml_view_measure_length view
              (c.GMATHML_MEDIUM_SPACE_EM * element.math_size)
          is_defined := true } ∧
      gmathml_view_measure_operator be view (some c.GMATHML_RADICAL_UTF8) false
        false 0 target ink_rect0 = some (view1, bbox) ∧
      gmathml_view_measure_radical c be view stretch_bbox ink_rect0
        = some (view1, bbox, x_offset, y_offset) ∧
      bbox.is_defined = true ∧
      bbox.height = target.height ∧ bbox.depth = target.depth ∧
      bbox.height ≥ target.height ∧ bbox.depth ≥ target.depth := by
  have hthick : radical_thickness c view element =
      (if view.is_vector = false ∧
          gmathml_view_measure_length view
            (element.math_size * c.GMATHML_RADICAL_TOP_LINE_WIDTH) < 1
       then 1
       else gmathml_view_measure_length view
            (element.math_size * c.GMATHML_RADICAL_TOP_LINE_WIDTH)) := by
    unfold radical_thickness
    cases hv : view.is_vector <;>
      by_cases hlt : gmathml_view_measure_length view
        (element.math_size * c.GMATHML_RADICAL_TOP_LINE_WIDTH) < 1 <;>
      simp [hlt]
  have htarget : radical_stretch_bbox c view element stretch_bbox =
      { width := stretch_bbox.width
        height := stretch_bbox.height +
          (gmathml_view_measure_length view
            (c.GMATHML_MEDIUM_SPACE_EM * element.math_size)
           + radical_thickness c view element)
        depth := stretch_bbox.depth +
          gmathml_view_measure_length view
            (c.GMATHML_MEDIUM_SPACE_EM * element.math_size)
        is_defined := true } := by
    simp [radical_stretch_bbox, hdef]
  generalize htg : radical_stretch_bbox c view element stretch_bbox = target
    at htarget
  have htdef : target.is_defined = true := by rw [htarget]
  have hflags := resolve_flags_hit be view element c.GMATHML_RADICAL_UTF8 false
    target ink_rect0 glyph hfind
  generalize hr : gmathml_view_measure_operator_resolve be view element
    c.GMATHML_RADICAL_UTF8 false target ink_rect0 = r at hflags
  have hop : gmathml_view_measure_operator be view (some c.GMATHML_RADICAL_UTF8)
      false false 0 target ink_rect0
      = some (r.view, gmathml_view_measure_operator_bbox view r.flags r.ink_rect
          r.baseline false 0 target) := by
    simp only [gmathml_view_measure_operator, hcur, hr]
  have hh : (gmathml_view_measure_operator_bbox view r.flags r.ink_rect
      r.baseline false 0 target).height = target.height := by
    simp [gmathml_view_measure_operator_bbox, htdef, hflags, hvert]
  have hd : (gmathml_view_measure_operator_bbox view r.flags r.ink_rect
      r.baseline false 0 target).depth = target.depth := by
    simp [gmathml_view_measure_operator_bbox, htdef, hflags, hvert]
  have hrad : gmathml_view_measure_radical c be view stretch_bbox ink_rect0
      = some (r.view,
          gmathml_view_measure_operator_bbox view r.flags r.ink_rect r.baseline
            false 0 target,
          gmathml_view_measure_length view
            ((gmathml_view_measure_operator_bbox view r.flags r.ink_rect
              r.baseline false 0 target).width * c.GMATHML_RADICAL_ORDER_X_OFFSET),
          gmathml_view_measure_length view
            (((gmathml_view_measure_operator_bbox view r.flags r.ink_rect
                r.baseline false 0 target).height +
              (gmathml_view_measure_operator_bbox view r.flags r.ink_rect
                r.baseline false 0 target).depth) *
              c.GMATHML_RADICAL_ORDER_Y_OFFSET -
              c.GMATHML_MEDIUM_SPACE_EM * element.math_size)) := by
    simp only [gmathml_view_measure_radical, hcur, htg, hop]
  exact ⟨radical_thickness c view element, target, r.view,
    gmathml_view_measure_operator_bbox view r.flags r.ink_rect r.baseline false 0
      target, _, _, hthick, htarget, hop, hrad, rfl, hh, hd, ge_of_eq hh,
    ge_of_eq hd⟩

/-- Witness of C14: the content box (20, 10, 2) at `math_size = 12` on raster
output, with a medium space of 2/9 em and a top line of 1/20 of the size: the
thickness is 1, the medium space snaps to 3, and the radical box has height
14 and depth 5. -/
theorem measure_radical_inflated_witness :
    ∃ (view1 : GMathmlView) (bbox : GMathmlBbox) (x_offset y_offset : ℚ),
      gmathml_view_measure_radical example_constants radical_backend view_12
        content_box zero_rect = some (view1, bbox, x_offset, y_offset) ∧
      bbox.is_defined = true ∧ bbox.height = 14 ∧ bbox.depth = 5 := by
  obtain ⟨thickness, target, view1, bbox, xo, yo, hth, htg, _, hm, hdef, hh, hd, _⟩ :=
    measure_radical_inflated example_constants radical_backend view_12 element_12
      content_box zero_rect radical_glyph rfl rfl rfl rfl
  have hsnap1 : gmathml_view_measure_length view_12
      (element_12.math_size * example_constants.GMATHML_RADICAL_TOP_LINE_WIDTH)
      = 1 := by
    norm_num [gmathml_view_measure_length, view_12, example_view, element_12,
      example_element, example_constants]
  have hsnap2 : gmathml_view_measure_length view_12
      (example_constants.GMATHML_MEDIUM_SPACE_EM * element_12.math_size) = 3 := by
    norm_num [gmathml_view_measure_length, view_12, example_view, element_12,
      example_element, example_constants]
  rw [hsnap1] at hth
  rw [hsnap2] at htg
  have hth1 : thickness = 1 := by rw [hth]; norm_num
  refine ⟨view1, bbox, xo, yo, hm, hdef, ?_, ?_⟩
  · rw [hh, htg, hth1]; norm_num [content_box]
  · rw [hd, htg]; norm_num [content_box]

/-- With a current element, a non-null text and a defined stretch box the
glyph resolution of `gmathml_view_show_operator` always yields a choice. -/
theorem show_operator_resolve_some (be : Backend) (view : GMathmlView)
    (element : GMathmlElement) (text : String) (large : Bool)
    (stretch_bbox : GMathmlBbox) (ink_rect0 : PangoRectangle)
    (hcur : view.current_element = some element)
    (hdef : stretch_bbox.is_defined = true) :
    ∃ r, gmathml_view_show_operator_resolve be view (some text) large
      stretch_bbox ink_rect0 = some r := by
  cases hfind : be.find_operator_glyph text <;>
    simp [gmathml_view_show_operator_resolve, hcur, hdef, hfind]

/-- C15 as stated fails on the code.  "x" is absent from the glyph table, so
it has no stretchable axis; its ink is 1 point wide and 1 point high.
Painted against a stretch box of width 1, height 5 and depth 2,
`gmathml_view_show_operator` scales by (1, 7), not by (1, 1). -/
theorem show_operator_scale_counterexample :
    example_backend.find_operator_glyph "x" = none ∧
    CairoOp.scale 1 7 ∈
      (gmathml_view_show_operator example_backend example_view 0 0 (some "x")
        false (stretch_box 5 2) zero_rect).2 ∧
    CairoOp.scale 1 1 ∉
      (gmathml_view_show_operator example_backend example_view 0 0 (some "x")
        false (stretch_box 5 2) zero_rect).2 := by
  refine ⟨rfl, ?_, ?_⟩ <;>
    norm_num +decide [gmathml_view_show_operator,
      gmathml_view_show_operator_resolve, gmathml_view_update_layout,
      example_view, example_backend, example_table, example_element, stretch_box,
      pango_units_to_double, PANGO_SCALE]

/-- C15 (amended): paint-time operator scaling.  With a current element, a
non-null text and a defined stretch box, whatever the flags of the entry and
also on a table miss: when the ink rectangle of the chosen glyph has non-zero
width and height, `gmathml_view_show_operator` paints it under the scale
`stretch.width / ink.width`, `(stretch.height + stretch.depth) / ink.height`,
and these factors are (1, 1) exactly when the stretch width equals the ink
width and the stretch height plus depth equals the ink height; when the ink
width or height is zero nothing is painted. -/
theorem show_operator_scale (be : Backend) (view : GMathmlView)
    (element : GMathmlElement) (x y : ℚ) (text : String) (large : Bool)
    (stretch_bbox : GMathmlBbox) (ink_rect0 : PangoRectangle)
    (hcur : view.current_element = some element)
    (hdef : stretch_bbox.is_defined = true) :
    ∃ (r : GlyphChoice) (scale_x scale_y : ℚ),
      gmathml_view_show_operator_resolve be view (some text) large stretch_bbox
        ink_rect0 = some r ∧
      scale_x = stretch_bbox.width / pango_units_to_double r.ink_rect.width ∧
      scale_y = (stretch_bbox.height + stretch_bbox.depth) /
        pango_units_to_double r.ink_rect.height ∧
      (if r.ink_rect.width = 0 ∨ r.ink_rect.height = 0 then
        gmathml_view_show_operator be view x y (some text) large stretch_bbox
          ink_rect0 = (r.view, [])
      else
        gmathml_view_show_operator be view x y (some text) large stretch_bbox
          ink_rect0
          = (r.view,
              [CairoOp.save] ++
              (if view.debug then
                [CairoOp.set_source_rgba 1 0 0 (1 / 10),
                 CairoOp.arc_circle x y 1, CairoOp.fill]
               else []) ++
              [CairoOp.move_to x y,
               CairoOp.move_to x (y - stretch_bbox.height),
               CairoOp.scale scale_x scale_y,
               CairoOp.rel_move_to (- pango_units_to_double r.ink_rect.x)
                 (- pango_units_to_double r.ink_rect.y),
               CairoOp.set_source_rgba element.math_color.red
                 element.math_color.green element.math_color.blue
                 element.math_color.alpha,
               CairoOp.show_layout r.view.pango_layout,
               CairoOp.restore]) ∧
        ((scale_x = 1 ∧ scale_y = 1) ↔
          (stretch_bbox.width = pango_units_to_double r.ink_rect.width ∧
           stretch_bbox.height + stretch_bbox.depth
             = pango_units_to_double r.ink_rect.height))) := by
  obtain ⟨r, hr⟩ := show_operator_resolve_some be view element text large
    stretch_bbox ink_rect0 hcur hdef
  refine ⟨r, _, _, hr, rfl, rfl, ?_⟩
  by_cases hz : r.ink_rect.width = 0 ∨ r.ink_rect.height = 0
  · rw [if_pos hz]
    rcases hz with hz | hz <;> simp [gmathml_view_show_operator, hcur, hr, hz]
  · rw [if_neg hz]
    push_neg at hz
    obtain ⟨hw, hh⟩ := hz
    have hw1 : pango_units_to_double r.ink_rect.width ≠ 0 := by
      simp only [pango_units_to_double, PANGO_SCALE]
      intro h
      field_simp at h
      exact hw (by exact_mod_cast h)
    have hh1 : pango_units_to_double r.ink_rect.height ≠ 0 := by
      simp only [pango_units_to_double, PANGO_SCALE]
      intro h
      field_simp at h
      exact hh (by exact_mod_cast h)
    constructor
    · simp [gmathml_view_show_operator, hcur, hr, hw, hh]
    · rw [div_eq_one_iff_eq hw1, div_eq_one_iff_eq hh1]

/-- Witness of C15 (amended): "(" painted on the raster example view against
a stretch box of width 1, height 5 and depth 2: no sized glyph exceeds 7
points, the last one (4 points high, 1 point wide) is chosen and painted
under the scale (1, 7/4). -/
theorem show_operator_scale_witness :
    CairoOp.scale 1 (7 / 4)
      ∈ (gmathml_view_show_operator example_backend example_view 0 0 (some "(")
          false (stretch_box 5 2) zero_rect).2 := by
  obtain ⟨r, sx, sy, hr, hsx, hsy, h⟩ :=
    show_operator_scale example_backend example_view example_element 0 0 "(" false
      (stretch_box 5 2) zero_rect rfl rfl
  have hw : r.ink_rect.width = 1024 ∧ r.ink_rect.height = 4096 := by
    have hr1 := hr
    norm_num +decide [gmathml_view_show_operator_resolve, example_view,
      example_backend, example_table, paren_glyph, example_element, stretch_box,
      sized_glyph_loop, stretch_found, sized_glyph_layout, pango_units_to_double,
      PANGO_SCALE] at hr1
    rw [← hr1]
    exact ⟨rfl, rfl⟩
  have hz : ¬ (r.ink_rect.width = 0 ∨ r.ink_rect.height = 0) := by
    rw [hw.1, hw.2]; decide
  rw [if_neg hz] at h
  have hsx1 : sx = 1 := by
    rw [hsx, hw.1]; norm_num [stretch_box, pango_units_to_double, PANGO_SCALE]
  have hsy1 : sy = 7 / 4 := by
    rw [hsy, hw.2]; norm_num [stretch_box, pango_units_to_double, PANGO_SCALE]
  rw [h.1, hsx1, hsy1]
  simp

/-- Pushing keeps the current element equal to the top of the stack. -/
theorem push_element_top (view : GMathmlView) (element : GMathmlElement) :
    (gmathml_view_push_element view element).current_element
      = (gmathml_view_push_element view element).elements.head? := rfl

/-- Popping leaves the current element equal to the top of the stack, if it
was before. -/
theorem pop_element_top (view : GMathmlView)
    (h : view.current_element = view.elements.head?) :
    (gmathml_view_pop_element view).current_element
      = (gmathml_view_pop_element view).elements.head? := by
  unfold gmathml_view_pop_element
  cases hel : view.elements with
  | nil => simpa [hel] using h
  | cons data rest =>
    cases rest with
    | nil => simp
    | cons top rest2 => simp

/-- Every sequence of push and pop calls keeps the current element equal to
the top of the stack. -/
theorem run_element_calls_top (calls : List ElementCall) :
    ∀ (view : GMathmlView), view.current_element = view.elements.head? →
      (run_element_calls view calls).current_element
        = (run_element_calls view calls).elements.head? := by
  induction calls with
  | nil => intro view h; exact h
  | cons call rest ih =>
    intro view h
    cases call with
    | push element =>
      exact ih (gmathml_view_push_element view element)
        (push_element_top view element)
    | pop =>
      exact ih (gmathml_view_pop_element view) (pop_element_top view h)

/-- Push followed by pop gives back the view, when its current element is the
top of its stack. -/
theorem pop_push_element (view : GMathmlView) (element : GMathmlElement)
    (h : view.current_element = view.elements.head?) :
    gmathml_view_pop_element (gmathml_view_push_element view element) = view := by
  obtain ⟨debug, layout, fd, is_vector, current, elements⟩ := view
  simp only at h
  cases elements with
  | nil =>
    simp only [List.head?_nil] at h
    simp [gmathml_view_pop_element, gmathml_view_push_element, h]
  | cons top rest =>
    simp only [List.head?_cons] at h
    simp [gmathml_view_pop_element, gmathml_view_push_element, h]

/-- C17: context-stack discipline.  In every state reached from a view with an
empty stack and no current element by a sequence of
`gmathml_view_push_element` and `gmathml_view_pop_element` calls, the current
element is the top of the element stack, and is none exactly when the stack is
empty; `push e` followed by `pop` gives back the same state (stack and current
element), for every `e`, also one that is already in the stack; and `pop` on a
view with an empty stack leaves it unchanged. -/
theorem stack_discipline (view0 : GMathmlView) (calls : List ElementCall)
    (hempty : view0.elements = []) (hnone : view0.current_element = none) :
    (run_element_calls view0 calls).current_element
      = (run_element_calls view0 calls).elements.head? ∧
    ((run_element_calls view0 calls).current_element = none ↔
      (run_element_calls view0 calls).elements = []) ∧
    (∀ (e : GMathmlElement),
      gmathml_view_pop_element
        (gmathml_view_push_element (run_element_calls view0 calls) e)
        = run_element_calls view0 calls) ∧
    (∀ (view : GMathmlView), view.elements = [] →
      gmathml_view_pop_element view = view) := by
  have htop := run_element_calls_top calls view0 (by rw [hempty, hnone]; rfl)
  refine ⟨htop, ?_, ?_, ?_⟩
  · rw [htop]
    cases (run_element_calls view0 calls).elements <;> simp
  · intro e
    exact pop_push_element _ e htop
  · intro view hview
    simp [gmathml_view_pop_element, hview]

/-- Witness of C17: from the fresh view, push the example element twice (the
second push finds it already in the stack) and pop once. -/
theorem stack_discipline_witness :
    (run_element_calls empty_view
        [ElementCall.push example_element, ElementCall.push example_element,
         ElementCall.pop]).current_element
      = (run_element_calls empty_view
        [ElementCall.push example_element, ElementCall.push example_element,
         ElementCall.pop]).elements.head? ∧
    ((run_element_calls empty_view
        [ElementCall.push example_element, ElementCall.push example_element,
         ElementCall.pop]).current_element = none ↔
      (run_element_calls empty_view
        [ElementCall.push example_element, ElementCall.push example_element,
         ElementCall.pop]).elements = []) ∧
    (∀ (e : GMathmlElement),
      gmathml_view_pop_element
        (gmathml_view_push_element (run_element_calls empty_view
          [ElementCall.push example_element, ElementCall.push example_element,
           ElementCall.pop]) e)
        = run_element_calls empty_view
          [ElementCall.push example_element, ElementCall.push example_element,
           ElementCall.pop]) ∧
    (∀ (view : GMathmlView), view.elements = [] →
      gmathml_view_pop_element view = view) :=
  stack_discipline empty_view
    [ElementCall.push example_element, ElementCall.push example_element,
     ElementCall.pop] rfl rfl

end Lasem
